import Mathlib

/-!
Verification development for the Hyd_PG dashboard (`app.py`).

The data engine of the repository is shallowly embedded here:
`clean_currency`, `generate_smart_tags`, the coordinate lookup over
`LOCATION_COORDINATES`, and the `load_data` ingestion/enrichment pipeline.
Pandas cells are modelled by `PyVal` (a string, a rational number, or the
missing/NaN marker); pandas text columns are modelled by `Option String`
(a string or a missing cell).  Python `float` values are modelled by `ℚ`;
the string parser `parseNum` models `float(str)` (and `pd.to_numeric` on
one cell) restricted to finite decimal literals with optional sign and
exponent — `inf`/`nan` words and underscore digit separators are outside
the model.  Python `str.lower`/`str.upper` are modelled on the ASCII range.
-/

namespace HydPG

/-- A pandas cell as seen by `clean_currency` / `pd.to_numeric`:
a string, a (float) number modelled as a rational, or the missing/NaN marker. -/
inductive PyVal where
  | str (s : String)
  | num (q : ℚ)
  | nan
deriving DecidableEq

/-- Python `str.strip()`: remove leading and trailing whitespace characters. -/
def pyStrip (l : List Char) : List Char :=
  ((l.dropWhile Char.isWhitespace).reverse.dropWhile Char.isWhitespace).reverse

/-- Python `s.replace(c, '')` for a one-character pattern `c`:
every occurrence of the character is removed. -/
def pyRemoveChar (c : Char) (l : List Char) : List Char :=
  l.filter (fun x => x ≠ c)

/-- Python `s.split(c)` for a one-character separator:
no collapsing of adjacent separators, `''.split(c) = ['']`. -/
def splitOnChar (c : Char) : List Char → List (List Char)
  | [] => [[]]
  | x :: xs =>
    let r := splitOnChar c xs
    if x = c then [] :: r
    else (x :: r.headD []) :: r.tail

/-- Numeric value of a digit run, most significant first. -/
def digitsVal (l : List Char) : ℚ :=
  l.foldl (fun acc c => acc * 10 + ((c.toNat - 48 : ℕ) : ℚ)) 0

/-- Numeric value of a digit run as an integer (for exponents). -/
def digitsValZ (l : List Char) : ℤ :=
  l.foldl (fun acc c => acc * 10 + ((c.toNat - 48 : ℕ) : ℤ)) 0

/-- Unsigned decimal mantissa: `123`, `123.`, `.5`, `1.5`.
`none` when the characters are not exactly such a literal. -/
def parseMantissa (l : List Char) : Option ℚ :=
  let ip := l.takeWhile Char.isDigit
  let r1 := l.dropWhile Char.isDigit
  match r1 with
  | [] => if ip = [] then none else some (digitsVal ip)
  | '.' :: r2 =>
    let fp := r2.takeWhile Char.isDigit
    let r3 := r2.dropWhile Char.isDigit
    if r3 = [] then
      if ip = [] ∧ fp = [] then none
      else some (digitsVal ip + digitsVal fp / (10 : ℚ) ^ fp.length)
    else none
  | _ => none

/-- Exponent part after `e`/`E`: optional sign then a nonempty digit run. -/
def parseExpPart (l : List Char) : Option ℤ :=
  match l with
  | '+' :: r => if r ≠ [] ∧ r.all Char.isDigit then some (digitsValZ r) else none
  | '-' :: r => if r ≠ [] ∧ r.all Char.isDigit then some (-digitsValZ r) else none
  | r => if r ≠ [] ∧ r.all Char.isDigit then some (digitsValZ r) else none

/-- Unsigned numeric literal: mantissa with optional `e`/`E` exponent. -/
def parseSignless (l : List Char) : Option ℚ :=
  let m := l.takeWhile (fun c => c ≠ 'e' ∧ c ≠ 'E')
  let rest := l.dropWhile (fun c => c ≠ 'e' ∧ c ≠ 'E')
  match rest with
  | [] => parseMantissa m
  | _ :: e =>
    match parseMantissa m, parseExpPart e with
    | some q, some z => some (q * (10 : ℚ) ^ z)
    | _, _ => none

/-- Model of Python `float(str)` (finite decimal literals): strips surrounding
whitespace, then an optional sign and an unsigned literal.  `none` models the
`ValueError` raised on anything else. -/
def parseNum (l : List Char) : Option ℚ :=
  match pyStrip l with
  | '+' :: r => parseSignless r
  | '-' :: r => (parseSignless r).map Neg.neg
  | r => parseSignless r

/-- Function `clean_currency` from `app.py`: on a string, remove the rupee sign and
commas and strip whitespace; if a dash is present, split on it and return the
mean of the first two parts (0 when either fails to parse); otherwise parse
the whole string (0 on failure).  Any non-string input is returned unchanged. -/
def clean_currency (x : PyVal) : PyVal :=
  match x with
  | .str s =>
    let clean_str := pyStrip (pyRemoveChar ',' (pyRemoveChar '₹' s.data))
    if '-' ∈ clean_str then
      let parts := splitOnChar '-' clean_str
      match parseNum (parts.getD 0 []), parseNum (parts.getD 1 []) with
      | some a, some b => .num ((a + b) / 2)
      | _, _ => .num 0
    else
      match parseNum clean_str with
      | some a => .num a
      | none => .num 0
  | v => v

/-- The attempted currency parse of a string, without the zero fallback:
`none` exactly when `clean_currency` falls back to `0` on this string. -/
def currencyParse (s : String) : Option ℚ :=
  let clean_str := pyStrip (pyRemoveChar ',' (pyRemoveChar '₹' s.data))
  if '-' ∈ clean_str then
    let parts := splitOnChar '-' clean_str
    match parseNum (parts.getD 0 []), parseNum (parts.getD 1 []) with
    | some a, some b => some ((a + b) / 2)
    | _, _ => none
  else parseNum clean_str

/-- Python `str.lower()` (ASCII model). -/
def pyLower (s : String) : String :=
  String.mk (s.data.map Char.toLower)

/-- Python `str.title()` helper: the boolean records whether the previous
character was alphabetic (cased). -/
def pyTitleAux : Bool → List Char → List Char
  | _, [] => []
  | prevAlpha, c :: r =>
    (if prevAlpha then c.toLower else c.toUpper) :: pyTitleAux c.isAlpha r

/-- Python `str.title()` (ASCII model): uppercase every character that follows
a non-alphabetic one, lowercase the rest. -/
def pyTitle (s : String) : String :=
  String.mk (pyTitleAux false s.data)

/-- Is `n` a contiguous run somewhere in the second list? -/
def isInfixChars (n : List Char) : List Char → Bool
  | [] => n.isEmpty
  | b :: bs => n.isPrefixOf (b :: bs) || isInfixChars n bs

/-- Python `needle in haystack` on strings: substring containment. -/
def pyIn (needle haystack : String) : Bool :=
  isInfixChars needle.data haystack.data

/-- Function `generate_smart_tags` from `app.py`: scan the lowercased comment for the
seven keyword groups, in source order, appending one fixed label per matching
group; an empty result is replaced by the generic reviewed label. -/
def generate_smart_tags (comment_text : String) : List String :=
  let text := pyLower comment_text
  let tags : List String := []
  let tags := if ["good food", "tasty", "delicious"].any (fun x => pyIn x text) then
    tags ++ ["🍛 Good Food"] else tags
  let tags := if ["metro", "transport", "near"].any (fun x => pyIn x text) then
    tags ++ ["🚇 Metro Near"] else tags
  let tags := if ["clean", "neat", "maintained"].any (fun x => pyIn x text) then
    tags ++ ["✨ Clean"] else tags
  let tags := if ["fast", "wifi", "internet"].any (fun x => pyIn x text) then
    tags ++ ["🚀 Fast WiFi"] else tags
  let tags := if ["bad food", "worst food", "repetitive"].any (fun x => pyIn x text) then
    tags ++ ["🥣 Bad Food"] else tags
  let tags := if ["cockroach", "bugs", "dirty"].any (fun x => pyIn x text) then
    tags ++ ["🪳 Hygiene Issue"] else tags
  let tags := if ["no parking", "congested"].any (fun x => pyIn x text) then
    tags ++ ["🚫 No Parking"] else tags
  if tags = [] then ["📝 Reviewed"] else tags

/-- All keywords configured in `generate_smart_tags`, every category together. -/
def CONFIGURED_KEYWORDS : List String :=
  ["good food", "tasty", "delicious", "metro", "transport", "near",
   "clean", "neat", "maintained", "fast", "wifi", "internet",
   "bad food", "worst food", "repetitive", "cockroach", "bugs", "dirty",
   "no parking", "congested"]

/-- Table `LOCATION_COORDINATES` from `app.py`, as an association list of
(area name, (lat, lon)); decimals are exact rationals. -/
def LOCATION_COORDINATES : List (String × ℚ × ℚ) :=
  [("Gachibowli", (174401/10000, 783489/10000)),
   ("Madhapur", (174483/10000, 783915/10000)),
   ("Kondapur", (174622/10000, 783568/10000)),
   ("Hitec City", (174435/10000, 783772/10000)),
   ("Jubilee Hills", (174325/10000, 784070/10000)),
   ("Banjara Hills", (174123/10000, 784389/10000)),
   ("Kukatpally", (174948/10000, 783996/10000)),
   ("Manikonda", (174018/10000, 783846/10000)),
   ("Nanakramguda", (174125/10000, 783396/10000)),
   ("Hafeezpet", (174856/10000, 783526/10000)),
   ("Ameerpet", (174375/10000, 784483/10000)),
   ("Unknown", (173850/10000, 784867/10000))]

/-- Python `x.split(' ')[0]`: the prefix of `x` before its first space
character (the whole of `x` when it has no space). -/
def firstSpaceToken (x : String) : String :=
  String.mk ((splitOnChar ' ' x.data).getD 0 [])

/-- The coordinate lookup applied to each normalized `Location` in `load_data`:
`LOCATION_COORDINATES.get(x, LOCATION_COORDINATES.get(x.split(' ')[0],
LOCATION_COORDINATES['Unknown']))`.  The `'Unknown'` entry is present, so the
dict indexing is modelled by `getD` with an arbitrary default. -/
def lookupCoords (x : String) : ℚ × ℚ :=
  match LOCATION_COORDINATES.lookup x with
  | some c => c
  | none =>
    match LOCATION_COORDINATES.lookup (firstSpaceToken x) with
    | some c => c
    | none => (LOCATION_COORDINATES.lookup "Unknown").getD (0, 0)

/-- Pandas `pd.to_numeric(·, errors='coerce').fillna(0)` on one `Rating` cell:
numbers kept, numeric strings parsed, anything else (and missing) becomes 0. -/
def coerceRating (v : PyVal) : ℚ :=
  match v with
  | .num q => q
  | .str s => (parseNum s.data).getD 0
  | .nan => 0

/-- Pandas `fillna('Unknown').str.strip().str.title()` on one `Location` cell. -/
def normLocation (v : Option String) : String :=
  pyTitle (String.mk (pyStrip (v.getD "Unknown").data))

/-- Pandas `fillna('Any').str.strip()` on one `Gender` cell. -/
def normGender (v : Option String) : String :=
  String.mk (pyStrip (v.getD "Any").data)

/-- One raw row after `pd.read_csv` and the column rename: `Cost` and `Rating`
cells may be strings, numbers or missing; the text columns are a string or a
missing cell.  Only the columns touched by the claims are modelled. -/
structure RawRow where
  name : Option String
  location : Option String
  sharing : Option String
  cost : PyVal
  rating : PyVal
  gender : Option String
  comments : Option String
  phone : Option String
deriving DecidableEq

/-- One row of the table `load_data` returns: cleaned, normalized and
enriched.  `sharing` and `phone` keep the `Option` type because `load_data`
applies no default to them. -/
structure Listing where
  name : Option String
  location : String
  sharing : Option String
  cost : ℚ
  rating : ℚ
  gender : String
  comments : String
  phone : Option String
  tags : List String
  lat : ℚ
  lon : ℚ
  valueScore : ℚ
deriving DecidableEq

/-- The per-row effect of `load_data`'s cleaning and enrichment:
`Cost` is cleaned by `clean_currency` and the row is kept only when the result
is a number strictly between 2000 and 60000; the kept row gets the normalized
`Rating`, `Location`, `Gender`, `Comments`, the smart tags, the coordinates of
its location and `Value Score = Rating**2 / Cost * 5000`. -/
def processRow (r : RawRow) : Option Listing :=
  match clean_currency r.cost with
  | .num cost =>
    if 2000 < cost ∧ cost < 60000 then
      let rating := coerceRating r.rating
      let location := normLocation r.location
      let comments := r.comments.getD ""
      let co := lookupCoords location
      some { name := r.name, location := location, sharing := r.sharing,
             cost := cost, rating := rating, gender := normGender r.gender,
             comments := comments, phone := r.phone,
             tags := generate_smart_tags comments,
             lat := co.1, lon := co.2,
             valueScore := rating ^ 2 / cost * 5000 }
    else none
  | _ => none

/-- Function `load_data` from `app.py`, applied to the parsed raw rows: the pandas
column pipeline acts row-wise, so the table it returns is the row-wise map of
`processRow` over the input, dropping the rows the `Cost` filter excludes. -/
def load_data (rows : List RawRow) : List Listing :=
  rows.filterMap processRow

/-- The coordinate lookup as the spec words it, for comparison with
`lookupCoords`: full string first, then the first whitespace-delimited token,
then the default.  The only difference from the source is the tokenization. -/
def firstWhitespaceToken (x : String) : String :=
  String.mk ((x.data.dropWhile Char.isWhitespace).takeWhile (fun c => ¬ c.isWhitespace))

/-- The spec-worded lookup built on `firstWhitespaceToken`; `lookupCoords` is
the one translated from the source. -/
def lookupCoordsSpec (x : String) : ℚ × ℚ :=
  match LOCATION_COORDINATES.lookup x with
  | some c => c
  | none =>
    match LOCATION_COORDINATES.lookup (firstWhitespaceToken x) with
    | some c => c
    | none => (LOCATION_COORDINATES.lookup "Unknown").getD (0, 0)

/-- A raw row with every optional column missing and `Cost` `"2500"`. -/
def rowVS : RawRow :=
  { name := none, location := none, sharing := none, cost := .str "2500",
    rating := .nan, gender := none, comments := none, phone := none }

/-- The listing `processRow` produces from `rowVS`. -/
def listVS : Listing :=
  { name := none, location := "Unknown", sharing := none, cost := 2500,
    rating := 0, gender := "Any", comments := "", phone := none,
    tags := ["📝 Reviewed"], lat := 173850/10000, lon := 784867/10000,
    valueScore := 0 }

/-- A raw row with `Cost` `"500"`, below the admissible floor. -/
def rowCheap : RawRow :=
  { name := none, location := none, sharing := none, cost := .str "500",
    rating := .nan, gender := none, comments := none, phone := none }

/-- A kept raw row (`Cost` `"9000"`) whose `Sharing` and `Phone` are missing. -/
def rowKept : RawRow :=
  { name := none, location := none, sharing := none, cost := .str "9000",
    rating := .nan, gender := none, comments := none, phone := none }

/-- The listing `processRow` produces from `rowKept`: `Sharing` and `Phone`
are still missing. -/
def listKept : Listing :=
  { name := none, location := "Unknown", sharing := none, cost := 9000,
    rating := 0, gender := "Any", comments := "", phone := none,
    tags := ["📝 Reviewed"], lat := 173850/10000, lon := 784867/10000,
    valueScore := 0 }

/-- A kept raw row whose categorical cells are missing but whose `Sharing` and
`Phone` are present. -/
def rowDef : RawRow :=
  { name := none, location := none, sharing := some "3 sharing",
    cost := .str "12000", rating := .str "abc", gender := none, comments := none,
    phone := some "9876543210" }

/-- The listing `processRow` produces from `rowDef`. -/
def listDef : Listing :=
  { name := none, location := "Unknown", sharing := some "3 sharing",
    cost := 12000, rating := 0, gender := "Any", comments := "",
    phone := some "9876543210", tags := ["📝 Reviewed"],
    lat := 173850/10000, lon := 784867/10000, valueScore := 0 }

/-- A kept raw row located in a two-word area present in the table. -/
def rowGeo : RawRow :=
  { name := none, location := some "Hitec City", sharing := none,
    cost := .str "8000", rating := .num 4, gender := none, comments := none,
    phone := none }

/-- The listing `processRow` produces from `rowGeo`. -/
def listGeo : Listing :=
  { name := none, location := "Hitec City", sharing := none, cost := 8000,
    rating := 4, gender := "Any", comments := "", phone := none,
    tags := ["📝 Reviewed"], lat := 174435/10000, lon := 783772/10000,
    valueScore := 10 }

/-- A kept raw row with `Cost` `"30000"`, inside the admissible range. -/
def rowMid : RawRow :=
  { name := none, location := none, sharing := none, cost := .str "30000",
    rating := .num 3, gender := none, comments := none, phone := none }

/-- The listing `processRow` produces from `rowMid`. -/
def listMid : Listing :=
  { name := none, location := "Unknown", sharing := none, cost := 30000,
    rating := 3, gender := "Any", comments := "", phone := none,
    tags := ["📝 Reviewed"], lat := 173850/10000, lon := 784867/10000,
    valueScore := 3/2 }

/-- A raw row whose `Cost` is already the number 2000, the exact lower bound. -/
def rowAt2000 : RawRow :=
  { name := none, location := none, sharing := none, cost := .num 2000,
    rating := .nan, gender := none, comments := none, phone := none }

/-- A raw row whose `Cost` is already the number 60000, the exact upper bound. -/
def rowAt60000 : RawRow :=
  { name := none, location := none, sharing := none, cost := .num 60000,
    rating := .nan, gender := none, comments := none, phone := none }

theorem splitOnChar_of_not_mem (c : Char) : ∀ (l : List Char), c ∉ l →
    splitOnChar c l = [l]
  | [], _ => rfl
  | x :: xs, h => by
    rw [List.mem_cons, not_or] at h
    simp only [splitOnChar, splitOnChar_of_not_mem c xs h.2]
    simp [Ne.symm h.1]

theorem splitOnChar_append (c : Char) : ∀ (A B : List Char), c ∉ A →
    splitOnChar c (A ++ c :: B) = A :: splitOnChar c B
  | [], B, _ => by simp [splitOnChar]
  | a :: A, B, hA => by
    rw [List.mem_cons, not_or] at hA
    rw [List.cons_append]
    simp only [splitOnChar, splitOnChar_append c A B hA.2]
    simp [Ne.symm hA.1]

/-- Characterization of a kept row: every field of the produced listing in
terms of the raw row. -/
theorem processRow_eq_some {r : RawRow} {l : Listing} (h : processRow r = some l) :
    ∃ q, clean_currency r.cost = PyVal.num q ∧ 2000 < q ∧ q < 60000 ∧
      l.cost = q ∧ l.rating = coerceRating r.rating ∧
      l.location = normLocation r.location ∧ l.gender = normGender r.gender ∧
      l.comments = r.comments.getD "" ∧ l.sharing = r.sharing ∧
      l.phone = r.phone ∧ l.name = r.name ∧
      l.tags = generate_smart_tags (r.comments.getD "") ∧
      l.lat = (lookupCoords (normLocation r.location)).1 ∧
      l.lon = (lookupCoords (normLocation r.location)).2 ∧
      l.valueScore = coerceRating r.rating ^ 2 / l.cost * 5000 := by
  simp only [processRow] at h
  split at h
  next q heq =>
    split at h
    next hif =>
      injection h with h
      subst h
      exact ⟨q, heq, hif.1, hif.2, rfl, rfl, rfl, rfl, rfl, rfl, rfl, rfl, rfl, rfl, rfl, rfl⟩
    next => exact absurd h (by simp)
  next => exact absurd h (by simp)

/-- C3: for every raw currency string whose cleaned form (currency symbol and
commas removed, whitespace stripped) is `A-B` with `A` and `B` parsing as
numbers `a` and `b`, `clean_currency` returns the arithmetic midpoint
`(a + b) / 2`. -/
theorem clean_currency_range_midpoint (s : String) (A B : List Char) (a b : ℚ)
    (hsplit : pyStrip (pyRemoveChar ',' (pyRemoveChar '₹' s.data)) = A ++ '-' :: B)
    (hA : '-' ∉ A) (hB : '-' ∉ B)
    (ha : parseNum A = some a) (hb : parseNum B = some b) :
    clean_currency (.str s) = .num ((a + b) / 2) := by
  have hmem : '-' ∈ A ++ '-' :: B := by simp
  simp only [clean_currency]
  rw [hsplit, if_pos hmem, splitOnChar_append '-' A B hA, splitOnChar_of_not_mem '-' B hB]
  simp [ha, hb]

/-- Witness for C3: `"₹5,000-7,000"` cleans to `5000-7000` and parses to the
midpoint `6000`. -/
theorem clean_currency_range_midpoint_witness :
    clean_currency (.str "₹5,000-7,000") = .num ((5000 + 7000) / 2) :=
  clean_currency_range_midpoint "₹5,000-7,000" "5000".data "7000".data 5000 7000
    (by decide) (by decide) (by decide)
    (by simp +decide [parseNum, parseSignless, parseMantissa, pyStrip, digitsVal]; norm_num)
    (by simp +decide [parseNum, parseSignless, parseMantissa, pyStrip, digitsVal]; norm_num)

/-- C4 counterexample: a missing/NaN cell cannot be parsed as a currency
amount, yet `clean_currency` returns it unchanged, not zero. -/
theorem clean_currency_nan_not_zeroed :
    clean_currency PyVal.nan = PyVal.nan ∧ clean_currency PyVal.nan ≠ PyVal.num 0 :=
  ⟨rfl, by decide⟩

/-- C4 (amended): for every string input, `clean_currency` always returns a
number — the parsed amount, or the zero fallback when the parse fails — and
never a failure; non-string inputs pass through unchanged (see C10). -/
theorem clean_currency_string_total (s : String) :
    clean_currency (.str s) = .num ((currencyParse s).getD 0) := by
  simp only [clean_currency, currencyParse]
  by_cases hm : '-' ∈ pyStrip (pyRemoveChar ',' (pyRemoveChar '₹' s.data))
  · rw [if_pos hm, if_pos hm]
    rcases h1 : parseNum ((splitOnChar '-'
        (pyStrip (pyRemoveChar ',' (pyRemoveChar '₹' s.data)))).getD 0 []) with _ | a <;>
      rcases h2 : parseNum ((splitOnChar '-'
        (pyStrip (pyRemoveChar ',' (pyRemoveChar '₹' s.data)))).getD 1 []) with _ | b <;>
      simp [h1, h2]
  · rw [if_neg hm, if_neg hm]
    rcases h : parseNum (pyStrip (pyRemoveChar ',' (pyRemoveChar '₹' s.data))) with _ | a <;>
      simp [h]

/-- C10: every non-string input — a missing/NaN cell or an already-numeric
cell — is returned unchanged by `clean_currency`; the zero fallback applies
only to strings. -/
theorem clean_currency_nonstring_id (v : PyVal) (h : ∀ s, v ≠ PyVal.str s) :
    clean_currency v = v := by
  cases v with
  | str s => exact absurd rfl (h s)
  | num q => rfl
  | nan => rfl

/-- Witness for C10 at a numeric cell and at the NaN cell. -/
theorem clean_currency_nonstring_id_witness :
    clean_currency (PyVal.num 7) = PyVal.num 7 ∧ clean_currency PyVal.nan = PyVal.nan :=
  ⟨clean_currency_nonstring_id (PyVal.num 7) (fun _ h => PyVal.noConfusion h),
   clean_currency_nonstring_id PyVal.nan (fun _ h => PyVal.noConfusion h)⟩

/-- C7: a comment in which no configured keyword occurs (case-insensitively)
gets exactly the single generic reviewed label. -/
theorem no_keyword_generic_tag (text : String)
    (h : ∀ k ∈ CONFIGURED_KEYWORDS, pyIn k (pyLower text) = false) :
    generate_smart_tags text = ["📝 Reviewed"] := by
  have h01 := h "good food" (by decide)
  have h02 := h "tasty" (by decide)
  have h03 := h "delicious" (by decide)
  have h04 := h "metro" (by decide)
  have h05 := h "transport" (by decide)
  have h06 := h "near" (by decide)
  have h07 := h "clean" (by decide)
  have h08 := h "neat" (by decide)
  have h09 := h "maintained" (by decide)
  have h10 := h "fast" (by decide)
  have h11 := h "wifi" (by decide)
  have h12 := h "internet" (by decide)
  have h13 := h "bad food" (by decide)
  have h14 := h "worst food" (by decide)
  have h15 := h "repetitive" (by decide)
  have h16 := h "cockroach" (by decide)
  have h17 := h "bugs" (by decide)
  have h18 := h "dirty" (by decide)
  have h19 := h "no parking" (by decide)
  have h20 := h "congested" (by decide)
  simp [generate_smart_tags, h01, h02, h03, h04, h05, h06, h07, h08, h09, h10,
    h11, h12, h13, h14, h15, h16, h17, h18, h19, h20]

/-- Witness for C7: a comment matching no keyword. -/
theorem no_keyword_generic_tag_witness :
    (∀ k ∈ CONFIGURED_KEYWORDS, pyIn k (pyLower "Quiet place.") = false) ∧
    generate_smart_tags "Quiet place." = ["📝 Reviewed"] :=
  ⟨by decide, no_keyword_generic_tag "Quiet place." (by decide)⟩

/-- C8 counterexample: on the scenario comment the produced labels are not the
plain strings the claim lists — every label carries its emoji prefix. -/
theorem smart_tags_plain_labels_refuted :
    generate_smart_tags "Good food and clean rooms but no parking" ≠
      ["Good Food", "Clean", "No Parking"] ∧
    "Good Food" ∉ generate_smart_tags "Good food and clean rooms but no parking" := by
  decide

/-- C8 (amended): the scenario comment matches exactly the good-food,
cleanliness and parking categories, one label each, in category-check order,
with the labels as the code writes them (emoji prefix included). -/
theorem smart_tags_scenario :
    generate_smart_tags "Good food and clean rooms but no parking" =
      ["🍛 Good Food", "✨ Clean", "🚫 No Parking"] := by
  decide

theorem processRow_rowVS : processRow rowVS = some listVS := by
  have hc : clean_currency (.str "2500") = .num 2500 := by
    simp +decide [clean_currency, pyStrip, pyRemoveChar, splitOnChar, parseNum,
      parseSignless, parseMantissa, parseExpPart, digitsVal, digitsValZ]
    norm_num
  simp only [processRow, rowVS, hc]
  simp +decide [listVS, Listing.mk.injEq, coerceRating, normLocation, normGender,
    generate_smart_tags, lookupCoords, firstSpaceToken, splitOnChar, pyIn, pyLower,
    pyTitle, pyTitleAux, pyStrip, List.lookup]

/-- C1: every listing `load_data` produces has
`Value Score = Rating**2 / Cost * 5000` (one fixed constant, `k = 5000`), and
a rating of 0 forces a score of 0 whatever the cost. -/
theorem value_score_formula (rows : List RawRow) (l : Listing) (h : l ∈ load_data rows) :
    l.valueScore = l.rating ^ 2 / l.cost * 5000 ∧ (l.rating = 0 → l.valueScore = 0) := by
  obtain ⟨r, -, hr⟩ := List.mem_filterMap.mp h
  obtain ⟨q, -, -, -, -, hrat, -, -, -, -, -, -, -, -, -, hvs⟩ := processRow_eq_some hr
  constructor
  · rw [hvs, hrat]
  · intro h0
    rw [hvs, ← hrat, h0]
    simp

/-- Witness for C1 on a concrete one-row table with missing rating. -/
theorem value_score_formula_witness :
    listVS.valueScore = listVS.rating ^ 2 / listVS.cost * 5000 ∧
    (listVS.rating = 0 → listVS.valueScore = 0) :=
  value_score_formula [rowVS] listVS (by simp [load_data, processRow_rowVS])

/-- C2: a row whose coerced Cost lies outside the admissible range (at most
2000, at least 60000, or not a number at all) contributes nothing to the table
`load_data` returns. -/
theorem cost_filter_excludes (r : RawRow) (pre post : List RawRow)
    (h : (∃ q, clean_currency r.cost = PyVal.num q ∧ (q ≤ 2000 ∨ 60000 ≤ q)) ∨
         clean_currency r.cost = PyVal.nan) :
    load_data (pre ++ r :: post) = load_data (pre ++ post) := by
  have hnone : processRow r = none := by
    rcases h with ⟨q, hq, hout⟩ | hnan
    · simp only [processRow, hq]
      rw [if_neg]
      rintro ⟨hl, hr2⟩
      rcases hout with h' | h' <;> linarith
    · simp only [processRow, hnan]
  simp [load_data, List.filterMap_append, List.filterMap_cons, hnone]

/-- Witness for C2: the below-floor row yields an empty table. -/
theorem cost_filter_excludes_witness : load_data [rowCheap] = [] :=
  (cost_filter_excludes rowCheap [] []
    (Or.inl ⟨500, by
      simp +decide [rowCheap, clean_currency, pyStrip, pyRemoveChar, splitOnChar, parseNum,
        parseSignless, parseMantissa, parseExpPart, digitsVal, digitsValZ]
      norm_num, Or.inl (by norm_num)⟩)).trans rfl

theorem processRow_rowKept : processRow rowKept = some listKept := by
  have hc : clean_currency (.str "9000") = .num 9000 := by
    simp +decide [clean_currency, pyStrip, pyRemoveChar, splitOnChar, parseNum,
      parseSignless, parseMantissa, parseExpPart, digitsVal, digitsValZ]
    norm_num
  simp only [processRow, rowKept, hc]
  simp +decide [listKept, Listing.mk.injEq, coerceRating, normLocation, normGender,
    generate_smart_tags, lookupCoords, firstSpaceToken, splitOnChar, pyIn, pyLower,
    pyTitle, pyTitleAux, pyStrip, List.lookup]

/-- C5 counterexample: a kept listing whose `Phone` and `Sharing` cells were
missing still carries missing values after `load_data` — no sentinel (in
particular no "not available" phone marker) is applied to these two fields. -/
theorem missing_phone_and_sharing_persist :
    (load_data [rowKept]).map Listing.phone = [none] ∧
    (load_data [rowKept]).map Listing.sharing = [none] := by
  rw [show load_data [rowKept] = [listKept] by simp [load_data, processRow_rowKept]]
  constructor <;> rfl

/-- C5 (amended): `load_data` replaces missing `Location`, `Gender` and
`Comments` by the sentinels `"Unknown"`, `"Any"` and `""`; `Sharing` and
`Phone` are passed through untouched and may remain missing. -/
theorem normalization_defaults (r : RawRow) (l : Listing) (h : processRow r = some l) :
    (r.location = none → l.location = "Unknown") ∧
    (r.gender = none → l.gender = "Any") ∧
    (r.comments = none → l.comments = "") ∧
    l.sharing = r.sharing ∧ l.phone = r.phone := by
  obtain ⟨q, -, -, -, -, -, hloc, hgen, hcom, hsh, hph, -, -, -, -, -⟩ :=
    processRow_eq_some h
  refine ⟨?_, ?_, ?_, hsh, hph⟩
  · intro e; rw [hloc, e]; decide
  · intro e; rw [hgen, e]; decide
  · intro e; rw [hcom, e]; rfl

theorem processRow_rowDef : processRow rowDef = some listDef := by
  have hc : clean_currency (.str "12000") = .num 12000 := by
    simp +decide [clean_currency, pyStrip, pyRemoveChar, splitOnChar, parseNum,
      parseSignless, parseMantissa, parseExpPart, digitsVal, digitsValZ]
    norm_num
  simp only [processRow, rowDef, hc]
  simp +decide [listDef, Listing.mk.injEq, coerceRating, normLocation, normGender,
    generate_smart_tags, lookupCoords, firstSpaceToken, splitOnChar, pyIn, pyLower,
    pyTitle, pyTitleAux, pyStrip, List.lookup, parseNum, parseSignless, parseMantissa]

/-- Witness for C5 (amended) on a concrete kept row. -/
theorem normalization_defaults_witness :
    listDef.location = "Unknown" ∧ listDef.gender = "Any" ∧ listDef.comments = "" ∧
    listDef.sharing = rowDef.sharing ∧ listDef.phone = rowDef.phone := by
  have h := normalization_defaults rowDef listDef processRow_rowDef
  exact ⟨h.1 rfl, h.2.1 rfl, h.2.2.1 rfl, h.2.2.2.1, h.2.2.2.2⟩

/-- C6 counterexample: the source splits on the space character only, not on
whitespace.  On a location containing a tab, the code falls to the default
pair while the spec-worded first-whitespace-token lookup finds Gachibowli. -/
theorem lookup_space_vs_whitespace :
    lookupCoords "Gachibowli\tColony" = (173850/10000, 784867/10000) ∧
    lookupCoordsSpec "Gachibowli\tColony" = (174401/10000, 783489/10000) ∧
    lookupCoords "Gachibowli\tColony" ≠ lookupCoordsSpec "Gachibowli\tColony" := by
  have h1 : lookupCoords "Gachibowli\tColony" = ((173850 : ℚ)/10000, (784867 : ℚ)/10000) := rfl
  have h2 : lookupCoordsSpec "Gachibowli\tColony" = ((174401 : ℚ)/10000, (783489 : ℚ)/10000) := rfl
  refine ⟨h1, h2, ?_⟩
  rw [h1, h2]
  intro hc
  rw [Prod.mk.injEq] at hc
  norm_num at hc

/-- C6 (amended): the coordinate lookup tries the full normalized location,
then the prefix before the first space character (`split(' ')[0]`), then the
configured default pair; the lat/lon of every produced listing come from this
lookup applied to its normalized location. -/
theorem coords_lookup_chain :
    (∀ x c, LOCATION_COORDINATES.lookup x = some c → lookupCoords x = c) ∧
    (∀ x c, LOCATION_COORDINATES.lookup x = none →
      LOCATION_COORDINATES.lookup (firstSpaceToken x) = some c → lookupCoords x = c) ∧
    (∀ x, LOCATION_COORDINATES.lookup x = none →
      LOCATION_COORDINATES.lookup (firstSpaceToken x) = none →
      lookupCoords x = (173850/10000, 784867/10000)) ∧
    (∀ (r : RawRow) (l : Listing), processRow r = some l →
      (l.lat, l.lon) = lookupCoords l.location) := by
  refine ⟨?_, ?_, ?_, ?_⟩
  · intro x c h; simp only [lookupCoords, h]
  · intro x c h1 h2; simp only [lookupCoords, h1, h2]
  · intro x h1 h2; simp only [lookupCoords, h1, h2]; rfl
  · intro r l h
    obtain ⟨q, -, -, -, -, -, hloc, -, -, -, -, -, -, hlat, hlon, -⟩ :=
      processRow_eq_some h
    rw [hlat, hlon, hloc]

theorem processRow_rowGeo : processRow rowGeo = some listGeo := by
  have hc : clean_currency (.str "8000") = .num 8000 := by
    simp +decide [clean_currency, pyStrip, pyRemoveChar, splitOnChar, parseNum,
      parseSignless, parseMantissa, parseExpPart, digitsVal, digitsValZ]
    norm_num
  simp only [processRow, rowGeo, hc]
  simp +decide [listGeo, Listing.mk.injEq, coerceRating, normLocation, normGender,
    generate_smart_tags, lookupCoords, firstSpaceToken, splitOnChar, pyIn, pyLower,
    pyTitle, pyTitleAux, pyStrip, List.lookup]
  norm_num

/-- Witness for C6 (amended): a direct hit, a first-token hit, a double miss,
and the lat/lon of a concrete produced listing. -/
theorem coords_lookup_chain_witness :
    lookupCoords "Madhapur" = (174483/10000, 783915/10000) ∧
    lookupCoords "Madhapur East" = (174483/10000, 783915/10000) ∧
    lookupCoords "Zzz Area" = (173850/10000, 784867/10000) ∧
    (listGeo.lat, listGeo.lon) = lookupCoords listGeo.location :=
  ⟨coords_lookup_chain.1 "Madhapur" _ rfl,
   coords_lookup_chain.2.1 "Madhapur East" ((174483 : ℚ)/10000, (783915 : ℚ)/10000) rfl rfl,
   coords_lookup_chain.2.2.1 "Zzz Area" rfl rfl,
   coords_lookup_chain.2.2.2 rowGeo listGeo processRow_rowGeo⟩

theorem processRow_rowMid : processRow rowMid = some listMid := by
  have hc : clean_currency (.str "30000") = .num 30000 := by
    simp +decide [clean_currency, pyStrip, pyRemoveChar, splitOnChar, parseNum,
      parseSignless, parseMantissa, parseExpPart, digitsVal, digitsValZ]
    norm_num
  simp only [processRow, rowMid, hc]
  simp +decide [listMid, Listing.mk.injEq, coerceRating, normLocation, normGender,
    generate_smart_tags, lookupCoords, firstSpaceToken, splitOnChar, pyIn, pyLower,
    pyTitle, pyTitleAux, pyStrip, List.lookup]
  norm_num

/-- C9: every row of the returned table has `2000 < Cost < 60000` (hence
`Cost ≠ 0`, so the Value Score division cannot divide by zero), and rows whose
coerced cost is exactly 2000 or exactly 60000 are excluded. -/
theorem cost_strictly_in_range :
    (∀ (rows : List RawRow) (l : Listing), l ∈ load_data rows →
      2000 < l.cost ∧ l.cost < 60000 ∧ l.cost ≠ 0) ∧
    (∀ r : RawRow, clean_currency r.cost = PyVal.num 2000 → processRow r = none) ∧
    (∀ r : RawRow, clean_currency r.cost = PyVal.num 60000 → processRow r = none) := by
  refine ⟨?_, ?_, ?_⟩
  · intro rows l h
    obtain ⟨r, -, hr⟩ := List.mem_filterMap.mp h
    obtain ⟨q, -, h1, h2, hcost, -⟩ := processRow_eq_some hr
    rw [hcost]
    exact ⟨h1, h2, (lt_trans (by norm_num) h1).ne'⟩
  · intro r h
    simp only [processRow, h]
    simp
  · intro r h
    simp only [processRow, h]
    simp

/-- Witness for C9: bounds on a concrete kept listing and exclusion of the two
exact-bound rows. -/
theorem cost_strictly_in_range_witness :
    (2000 < listMid.cost ∧ listMid.cost < 60000 ∧ listMid.cost ≠ 0) ∧
    processRow rowAt2000 = none ∧ processRow rowAt60000 = none :=
  ⟨cost_strictly_in_range.1 [rowMid] listMid (by simp [load_data, processRow_rowMid]),
   cost_strictly_in_range.2.1 rowAt2000 rfl,
   cost_strictly_in_range.2.2 rowAt60000 rfl⟩

end HydPG
